import Mathlib

/-!
Shallow embedding of the authentication session core of the
login-and-register-jwt-angular repository.

The embedded code is:
  - `AuthService` (src/unnamed/part_000): a mutable signal
    `#currentUser : any | null`, the constructor / `checkAuthStatus`
    restore path reading `localStorage.getItem('token_access')`, the
    derived `isAuthenticated = computed(() => !!this.#currentUser())`,
    `login(credentials)` whose `tap` writes
    `localStorage.setItem('token_access', response.token)` and
    `this.#currentUser.set(response.user)`, and `logout()` which removes
    the storage key and sets the signal to `null`.
  - `authInterceptor` (src/unnamed/part_001, lines 235-250): on an
    `HttpErrorResponse` with `status === 401` it calls
    `authService.logout()` and `router.navigate(['/login'])`, and in all
    error cases rethrows the error via `throwError`.

JavaScript values reaching the signal are modelled by `JSValue`
(null, undefined, booleans, numbers as integers, strings, objects as
field lists); JS truthiness is `JSValue.truthy`.  `localStorage` is
modelled as the single key it is used for: an `Option String`.
-/

/-- Model of a JavaScript value as stored in the `#currentUser` signal
(`any | null`).  `vUndefined` stands for `undefined` (e.g. reading an
absent field of a response object); `vObj` is an object as an ordered
field list. -/
inductive JSValue where
  | vNull : JSValue
  | vUndefined : JSValue
  | vBool : Bool → JSValue
  | vNum : Int → JSValue
  | vStr : String → JSValue
  | vObj : List (String × JSValue) → JSValue
deriving Repr

namespace JSValue

/-- JavaScript truthiness (`!!v`): `null`, `undefined`, `false`, `0` and
the empty string are falsy; every object is truthy. -/
def truthy : JSValue → Bool
  | vNull => false
  | vUndefined => false
  | vBool b => b
  | vNum n => n != 0
  | vStr s => s != ""
  | vObj _ => true

/-- Does the string `t` occur as a string value anywhere inside `v`
(recursively through object fields)?  Used to ask whether a session
value "contains" a token. -/
def containsStr (t : String) : JSValue → Bool
  | vStr s => s = t
  | vObj fs => go t fs
  | _ => false
where
  /-- Field-list helper for `containsStr`. -/
  go (t : String) : List (String × JSValue) → Bool
  | [] => false
  | (_, v) :: rest => containsStr t v || go t rest

end JSValue

/-- Transport-level HTTP error (`HttpErrorResponse`): a numeric status
(0 for a network failure) and a message. -/
structure HttpError where
  status : Nat
  message : String
deriving Repr, DecidableEq

/-- Payload of a successful login response as used by the `tap` callback:
`response.token` (a string, written to storage) and `response.user`
(arbitrary JS value; `vUndefined` models an absent `user` field). -/
structure LoginResponse where
  token : String
  user : JSValue
deriving Repr

/-- Outcome of the transport collaborator for one `login` call: either a
successful response payload or a transport error. -/
inductive LoginResult where
  | success : LoginResponse → LoginResult
  | failure : HttpError → LoginResult

/-- State of the session core: the single `localStorage` key
`'token_access'` (`none` when absent) and the `#currentUser` signal
(`JSValue.vNull` when the signal holds `null`). -/
structure AuthState where
  storage : Option String
  currentUser : JSValue
deriving Repr

namespace AuthService

/-- Truthiness of `localStorage.getItem('token_access')`: `null` (absent
key) and the empty string are falsy, every other string is truthy.
Mirrors the `if (token)` tests in the constructor and
`checkAuthStatus`. -/
def tokenTruthy : Option String → Bool
  | none => false
  | some t => t != ""

/-- Embeds `checkAuthStatus()`: read the token from storage; if truthy,
set the signal to the placeholder object `{ token }`, else set it to
`null`. -/
def checkAuthStatus (st : AuthState) : AuthState :=
  match st.storage with
  | some t =>
      if t != "" then { st with currentUser := JSValue.vObj [("token", JSValue.vStr t)] }
      else { st with currentUser := JSValue.vNull }
  | none => { st with currentUser := JSValue.vNull }

/-- Embeds the `AuthService` constructor: the signal starts as `null`,
`checkAuthStatus()` runs, then the constructor reads the token again and,
if truthy, sets the signal to `{ token }` once more. -/
def construct (storage : Option String) : AuthState :=
  let st1 := checkAuthStatus { storage := storage, currentUser := JSValue.vNull }
  match storage with
  | some t =>
      if t != "" then { st1 with currentUser := JSValue.vObj [("token", JSValue.vStr t)] }
      else st1
  | none => st1

/-- Embeds the derived view `isAuthenticated = computed(() =>
!!this.#currentUser())`: JS truthiness of the signal value. -/
def isAuthenticated (st : AuthState) : Bool :=
  st.currentUser.truthy

/-- Embeds the read-only view `currentUser` (the signal value itself). -/
def currentUser (st : AuthState) : JSValue :=
  st.currentUser

/-- Embeds the `tap` side effects of a successful `login`:
`localStorage.setItem('token_access', response.token)` then
`this.#currentUser.set(response.user)`. -/
def applyLoginTap (_st : AuthState) (resp : LoginResponse) : AuthState :=
  { storage := some resp.token, currentUser := resp.user }

/-- Embeds one completed `login(credentials)` call given the transport
outcome: on success the `tap` side effects run and the full response is
delivered to the subscriber; on failure `tap` does nothing and the error
is delivered unchanged (rx `tap` passes errors through; there is no retry
operator in the pipe). -/
def login (st : AuthState) (r : LoginResult) : AuthState × Except HttpError LoginResponse :=
  match r with
  | LoginResult.success resp => (applyLoginTap st resp, Except.ok resp)
  | LoginResult.failure e => (st, Except.error e)

/-- Embeds `logout()`: `localStorage.removeItem('token_access')` then
`this.#currentUser.set(null)`. -/
def logout (_st : AuthState) : AuthState :=
  { storage := none, currentUser := JSValue.vNull }

/-- States of the session core reachable from construction by any
sequence of completed `login` calls and `logout()` calls. -/
inductive Reachable : AuthState → Prop where
  | constructed (storage : Option String) : Reachable (construct storage)
  | loginStep (st : AuthState) (r : LoginResult) :
      Reachable st → Reachable (login st r).1
  | logoutStep (st : AuthState) :
      Reachable st → Reachable (logout st)

end AuthService

/-- One observable action of the interceptor's error path, in order. -/
inductive InterceptAction where
  | callLogout : InterceptAction
  | navigateToLogin : InterceptAction
deriving Repr, DecidableEq

/-- Result of the `authInterceptor` `catchError` handler on one HTTP
error: the auth state after the handler, the ordered list of actions it
performed, and the outcome delivered downstream (`throwError` rethrows
the same error). -/
structure InterceptOutcome where
  state : AuthState
  actions : List InterceptAction
  outcome : Except HttpError Unit
deriving Repr

/-- Embeds the `catchError` branch of `authInterceptor`
(src/unnamed/part_001 lines 240-248): if `error.status === 401` it calls
`authService.logout()` then `router.navigate(['/login'])`; in every case
it returns `throwError(() => error)`. -/
def authInterceptorOnError (st : AuthState) (e : HttpError) : InterceptOutcome :=
  if e.status = 401 then
    { state := AuthService.logout st
      actions := [InterceptAction.callLogout, InterceptAction.navigateToLogin]
      outcome := Except.error e }
  else
    { state := st, actions := [], outcome := Except.error e }

/-- C1 (counterexample): with the successful response
`{token := "tok-1", user := null}` the tap runs (storage receives
"tok-1" and currentUser() equals the response user), yet
`isAuthenticated()` is false, so the claim that every processed
`{token, user}` response leaves `isAuthenticated()` true is false as
stated. -/
theorem login_token_user_claim_false :
    ¬ (∀ (st : AuthState) (resp : LoginResponse),
        (AuthService.login st (LoginResult.success resp)).1.storage = some resp.token ∧
        AuthService.currentUser (AuthService.login st (LoginResult.success resp)).1 =
          resp.user ∧
        AuthService.isAuthenticated
          (AuthService.login st (LoginResult.success resp)).1 = true) := by
  intro h
  exact absurd
    (h (AuthService.construct none) ⟨"tok-1", JSValue.vNull⟩).2.2
    (by decide)

/-- C1 (amended): for every successful `login` whose response is
`{token, user}` with a truthy `user` payload, the post-call storage holds
that token, `currentUser()` equals that user payload, and
`isAuthenticated()` is true. -/
theorem login_success_updates_state (st : AuthState) (resp : LoginResponse)
    (h : JSValue.truthy resp.user = true) :
    (AuthService.login st (LoginResult.success resp)).1.storage = some resp.token ∧
    AuthService.currentUser (AuthService.login st (LoginResult.success resp)).1 =
      resp.user ∧
    AuthService.isAuthenticated
      (AuthService.login st (LoginResult.success resp)).1 = true := by
  exact ⟨rfl, rfl, h⟩

/-- C1 (witness): the amended theorem applied at the Scenario B response
`{token := "tok-1", user := {id: 1}}` from the empty start state. -/
theorem login_success_updates_state_witness :
    JSValue.truthy (JSValue.vObj [("id", JSValue.vNum 1)]) = true ∧
    ((AuthService.login (AuthService.construct none)
        (LoginResult.success ⟨"tok-1", JSValue.vObj [("id", JSValue.vNum 1)]⟩)).1.storage =
        some "tok-1" ∧
      AuthService.currentUser (AuthService.login (AuthService.construct none)
        (LoginResult.success ⟨"tok-1", JSValue.vObj [("id", JSValue.vNum 1)]⟩)).1 =
        JSValue.vObj [("id", JSValue.vNum 1)] ∧
      AuthService.isAuthenticated (AuthService.login (AuthService.construct none)
        (LoginResult.success ⟨"tok-1", JSValue.vObj [("id", JSValue.vNum 1)]⟩)).1 = true) :=
  ⟨rfl, login_success_updates_state (AuthService.construct none)
    ⟨"tok-1", JSValue.vObj [("id", JSValue.vNum 1)]⟩ rfl⟩

/-- C2: every failing `login` call leaves the whole auth state (Session
signal and the stored token) exactly equal to its pre-call value and
delivers the transport error unchanged to the caller; the pipe contains
no retry or catch operator, so the single transport error maps to a
single delivered error. -/
theorem login_failure_preserves_state (st : AuthState) (e : HttpError) :
    AuthService.login st (LoginResult.failure e) = (st, Except.error e) :=
  rfl

/-- C3 (counterexample): `isAuthenticated()` is JS truthiness of the
signal, not a null test.  The reachable state after a successful login
whose response user payload is the number `0` holds a non-null Session
value while `isAuthenticated()` is false, refuting the claimed
iff-with-non-null in reachable states. -/
theorem isAuthenticated_nonnull_iff_claim_false :
    ¬ (∀ st : AuthState, AuthService.Reachable st →
        (AuthService.isAuthenticated st = true ↔
          AuthService.currentUser st ≠ JSValue.vNull)) := by
  intro h
  have hreach : AuthService.Reachable
      (AuthService.login (AuthService.construct none)
        (LoginResult.success ⟨"tok-0", JSValue.vNum 0⟩)).1 :=
    AuthService.Reachable.loginStep _ _ (AuthService.Reachable.constructed none)
  have hne : AuthService.currentUser
      (AuthService.login (AuthService.construct none)
        (LoginResult.success ⟨"tok-0", JSValue.vNum 0⟩)).1 ≠ JSValue.vNull := by
    intro hc
    have hc' : JSValue.vNum 0 = JSValue.vNull := hc
    cases hc'
  exact absurd ((h _ hreach).mpr hne) (by decide)

/-- C3 (amended): in every reachable state, `isAuthenticated()` is true
iff the Session slot holds a truthy value; truthiness implies the slot is
non-null, so the forward direction of the original claim still holds,
but a falsy non-null payload (0, "", false) breaks the converse. -/
theorem isAuthenticated_truthy_iff (st : AuthState)
    (_h : AuthService.Reachable st) :
    (AuthService.isAuthenticated st = true ↔
      JSValue.truthy (AuthService.currentUser st) = true) ∧
    (AuthService.isAuthenticated st = true →
      AuthService.currentUser st ≠ JSValue.vNull) := by
  refine ⟨Iff.rfl, ?_⟩
  intro ha hc
  have ha' : JSValue.truthy st.currentUser = true := ha
  have hc' : st.currentUser = JSValue.vNull := hc
  rw [hc'] at ha'
  exact absurd ha' (by decide)

/-- C3 (witness): the amended theorem applied at the constructed state
with empty storage, which is reachable by construction. -/
theorem isAuthenticated_truthy_iff_witness :
    (AuthService.isAuthenticated (AuthService.construct none) = true ↔
      JSValue.truthy (AuthService.currentUser (AuthService.construct none)) = true) ∧
    (AuthService.isAuthenticated (AuthService.construct none) = true →
      AuthService.currentUser (AuthService.construct none) ≠ JSValue.vNull) :=
  isAuthenticated_truthy_iff (AuthService.construct none)
    (AuthService.Reachable.constructed none)

/-- C4 (counterexample): after construction with storage holding the
token `""`, `isAuthenticated()` is false and `currentUser()` is null
(the constructor tests the stored token by string truthiness), so the
claim that any stored token T yields an authenticated restored session
is false as stated. -/
theorem construct_restore_claim_false :
    ¬ ((∀ T : String,
          AuthService.isAuthenticated (AuthService.construct (some T)) = true ∧
          JSValue.containsStr T
            (AuthService.currentUser (AuthService.construct (some T))) = true) ∧
        (AuthService.isAuthenticated (AuthService.construct none) = false ∧
          AuthService.currentUser (AuthService.construct none) = JSValue.vNull)) := by
  intro h
  exact absurd (h.1 "").1 (by decide)

/-- C4 (amended): after construction with storage holding a non-empty
token T, `isAuthenticated()` is true and `currentUser()` is the
placeholder object `{token: T}`, which contains T; with storage empty,
`isAuthenticated()` is false and `currentUser()` is null. -/
theorem construct_restores_session (T : String) (h : T ≠ "") :
    (AuthService.isAuthenticated (AuthService.construct (some T)) = true ∧
      AuthService.currentUser (AuthService.construct (some T)) =
        JSValue.vObj [("token", JSValue.vStr T)] ∧
      JSValue.containsStr T
        (AuthService.currentUser (AuthService.construct (some T))) = true) ∧
    (AuthService.isAuthenticated (AuthService.construct none) = false ∧
      AuthService.currentUser (AuthService.construct none) = JSValue.vNull) := by
  have hb : (T != "") = true := by simpa [bne_iff_ne] using h
  refine ⟨⟨?_, ?_, ?_⟩, rfl, rfl⟩ <;>
    simp [AuthService.isAuthenticated, AuthService.currentUser, AuthService.construct,
      AuthService.checkAuthStatus, hb, JSValue.truthy, JSValue.containsStr,
      JSValue.containsStr.go]

/-- C4 (witness): the amended theorem applied at the stored token
"tok-9". -/
theorem construct_restores_session_witness :
    "tok-9" ≠ "" ∧
    ((AuthService.isAuthenticated (AuthService.construct (some "tok-9")) = true ∧
      AuthService.currentUser (AuthService.construct (some "tok-9")) =
        JSValue.vObj [("token", JSValue.vStr "tok-9")] ∧
      JSValue.containsStr "tok-9"
        (AuthService.currentUser (AuthService.construct (some "tok-9"))) = true) ∧
    (AuthService.isAuthenticated (AuthService.construct none) = false ∧
      AuthService.currentUser (AuthService.construct none) = JSValue.vNull)) :=
  ⟨by decide, construct_restores_session "tok-9" (by decide)⟩

/-- C5: from every prior state, `logout()` leaves the storage key
absent, `currentUser()` null and `isAuthenticated()` false, and running
`logout()` again from the resulting state produces exactly the same
state with no error, so `logout()` is idempotent. -/
theorem logout_clears_and_idempotent (st : AuthState) :
    (AuthService.logout st).storage = none ∧
    AuthService.currentUser (AuthService.logout st) = JSValue.vNull ∧
    AuthService.isAuthenticated (AuthService.logout st) = false ∧
    AuthService.logout (AuthService.logout st) = AuthService.logout st :=
  ⟨rfl, rfl, rfl, rfl⟩

/-- C6 (counterexample): the tap sets the signal to `response.user`
alone, never to `{token, user}`.  For the response
`{token := "tok-1", user := {id: 1}}` the post-login Session value does
not contain the token "tok-1" anywhere, so the claim that the Session is
set to `{token, user}` (containing both) is false as stated. -/
theorem login_session_token_user_claim_false :
    ¬ (∀ (st : AuthState) (resp : LoginResponse),
        JSValue.containsStr resp.token
          (AuthService.currentUser
            (AuthService.login st (LoginResult.success resp)).1) = true ∧
        AuthService.currentUser (AuthService.login st (LoginResult.success resp)).1 =
          JSValue.vObj [("token", JSValue.vStr resp.token), ("user", resp.user)]) := by
  intro h
  exact absurd
    (h (AuthService.construct none)
      ⟨"tok-1", JSValue.vObj [("id", JSValue.vNum 1)]⟩).1
    (by decide)

/-- C6 (amended): after every successful login, the in-memory Session is
set to the response's user payload exactly, replacing any placeholder
state; the response token goes only to storage, not into the Session. -/
theorem login_sets_session_to_user (st : AuthState) (resp : LoginResponse) :
    AuthService.currentUser (AuthService.login st (LoginResult.success resp)).1 =
      resp.user ∧
    (AuthService.login st (LoginResult.success resp)).1.storage = some resp.token :=
  ⟨rfl, rfl⟩

/-- C7: whenever an intercepted call errors with status 401, the
interceptor calls `logout()` (after which the storage key is absent and
the Session is null) and then navigates to the login route, in that
order, and still rethrows the same error to the original caller. -/
theorem interceptor_401_forces_logout (st : AuthState) (e : HttpError)
    (h : e.status = 401) :
    authInterceptorOnError st e =
      { state := AuthService.logout st
        actions := [InterceptAction.callLogout, InterceptAction.navigateToLogin]
        outcome := Except.error e } ∧
    (authInterceptorOnError st e).state.storage = none ∧
    AuthService.currentUser (authInterceptorOnError st e).state = JSValue.vNull ∧
    AuthService.isAuthenticated (authInterceptorOnError st e).state = false := by
  simp [authInterceptorOnError, h, AuthService.logout, AuthService.currentUser,
    AuthService.isAuthenticated, JSValue.truthy]

/-- C7 (witness): the theorem applied to a 401 error arriving while a
restored session is live. -/
theorem interceptor_401_forces_logout_witness :
    (⟨401, "Unauthorized"⟩ : HttpError).status = 401 ∧
    (authInterceptorOnError (AuthService.construct (some "tok-9"))
        ⟨401, "Unauthorized"⟩ =
      { state := AuthService.logout (AuthService.construct (some "tok-9"))
        actions := [InterceptAction.callLogout, InterceptAction.navigateToLogin]
        outcome := Except.error ⟨401, "Unauthorized"⟩ } ∧
    (authInterceptorOnError (AuthService.construct (some "tok-9"))
        ⟨401, "Unauthorized"⟩).state.storage = none ∧
    AuthService.currentUser (authInterceptorOnError
        (AuthService.construct (some "tok-9")) ⟨401, "Unauthorized"⟩).state =
      JSValue.vNull ∧
    AuthService.isAuthenticated (authInterceptorOnError
        (AuthService.construct (some "tok-9")) ⟨401, "Unauthorized"⟩).state = false) :=
  ⟨rfl, interceptor_401_forces_logout (AuthService.construct (some "tok-9"))
    ⟨401, "Unauthorized"⟩ rfl⟩

/-- C8 (counterexample): for the successful response
`{token := "", user := null}` the Session is absent and storage holds
the response token, but a later construction from that storage reports
NOT authenticated (the empty-string token is falsy), so the claim's
"a later initialize() would report authenticated" is false as stated. -/
theorem login_null_user_divergence_claim_false :
    ¬ (∀ (st : AuthState) (resp : LoginResponse),
        (resp.user = JSValue.vNull ∨ resp.user = JSValue.vUndefined) →
        ((AuthService.login st (LoginResult.success resp)).1.storage =
            some resp.token ∧
          AuthService.isAuthenticated
            (AuthService.construct (some resp.token)) = true ∧
          AuthService.isAuthenticated
            (AuthService.login st (LoginResult.success resp)).1 = false)) := by
  intro h
  exact absurd
    (h (AuthService.construct none) ⟨"", JSValue.vNull⟩ (Or.inl rfl)).2.1
    (by decide)

/-- C8 (amended): for every successful login whose response has a null
or absent user payload and a non-empty token, the post-call state
diverges: storage holds the response token (so a later construction from
that storage reports authenticated) while the in-memory Session is the
falsy user payload and `isAuthenticated()` is false, because
authentication status is truthiness of the stored user payload. -/
theorem login_null_user_divergence (st : AuthState) (resp : LoginResponse)
    (ht : resp.token ≠ "")
    (hu : resp.user = JSValue.vNull ∨ resp.user = JSValue.vUndefined) :
    (AuthService.login st (LoginResult.success resp)).1.storage = some resp.token ∧
    AuthService.currentUser (AuthService.login st (LoginResult.success resp)).1 =
      resp.user ∧
    AuthService.isAuthenticated
      (AuthService.login st (LoginResult.success resp)).1 = false ∧
    AuthService.isAuthenticated (AuthService.construct (some resp.token)) = true := by
  have hb : (resp.token != "") = true := by simpa [bne_iff_ne] using ht
  refine ⟨rfl, rfl, ?_, ?_⟩
  · rcases hu with h | h <;>
      simp [AuthService.isAuthenticated, AuthService.login, AuthService.applyLoginTap,
        h, JSValue.truthy]
  · simp [AuthService.isAuthenticated, AuthService.construct,
      AuthService.checkAuthStatus, hb, JSValue.truthy]

/-- C8 (witness): the amended theorem applied at the response
`{token := "tok-1", user := null}` from the empty start state. -/
theorem login_null_user_divergence_witness :
    "tok-1" ≠ "" ∧
    (JSValue.vNull = JSValue.vNull ∨ JSValue.vNull = JSValue.vUndefined) ∧
    ((AuthService.login (AuthService.construct none)
        (LoginResult.success ⟨"tok-1", JSValue.vNull⟩)).1.storage = some "tok-1" ∧
      AuthService.currentUser (AuthService.login (AuthService.construct none)
        (LoginResult.success ⟨"tok-1", JSValue.vNull⟩)).1 = JSValue.vNull ∧
      AuthService.isAuthenticated (AuthService.login (AuthService.construct none)
        (LoginResult.success ⟨"tok-1", JSValue.vNull⟩)).1 = false ∧
      AuthService.isAuthenticated (AuthService.construct (some "tok-1")) = true) :=
  ⟨by decide, Or.inl rfl,
    login_null_user_divergence (AuthService.construct none) ⟨"tok-1", JSValue.vNull⟩
      (by decide) (Or.inl rfl)⟩

/-- C9: for every intercepted HTTP error whose status is not 401, the
handler performs no action at all (no logout, no navigation), leaves the
auth state (Session and storage) unchanged, and rethrows the same
error. -/
theorem interceptor_non_401_rethrows (st : AuthState) (e : HttpError)
    (h : e.status ≠ 401) :
    authInterceptorOnError st e =
      { state := st, actions := [], outcome := Except.error e } ∧
    (authInterceptorOnError st e).state = st ∧
    (authInterceptorOnError st e).actions = [] := by
  simp [authInterceptorOnError, h]

/-- C9 (witness): the theorem applied to a 403 error arriving while a
restored session is live. -/
theorem interceptor_non_401_rethrows_witness :
    (⟨403, "Forbidden"⟩ : HttpError).status ≠ 401 ∧
    (authInterceptorOnError (AuthService.construct (some "tok-9"))
        ⟨403, "Forbidden"⟩ =
      { state := AuthService.construct (some "tok-9")
        actions := []
        outcome := Except.error ⟨403, "Forbidden"⟩ } ∧
    (authInterceptorOnError (AuthService.construct (some "tok-9"))
        ⟨403, "Forbidden"⟩).state = AuthService.construct (some "tok-9") ∧
    (authInterceptorOnError (AuthService.construct (some "tok-9"))
        ⟨403, "Forbidden"⟩).actions = []) :=
  ⟨by decide, interceptor_non_401_rethrows (AuthService.construct (some "tok-9"))
    ⟨403, "Forbidden"⟩ (by decide)⟩

/-- C10: with storage holding the empty string under the token key at
construction time, the constructor treats it as absent: storage is left
as it was, the Session is null, `isAuthenticated()` is false and
`currentUser()` is null, because presence of the stored token is tested
by string truthiness. -/
theorem construct_empty_string_token :
    AuthService.construct (some "") =
      { storage := some "", currentUser := JSValue.vNull } ∧
    AuthService.isAuthenticated (AuthService.construct (some "")) = false ∧
    AuthService.currentUser (AuthService.construct (some "")) = JSValue.vNull :=
  ⟨rfl, rfl, rfl⟩
